import Mathlib

/-!
Shallow embedding of `src/books_app.py` (a Streamlit bookstore dashboard over a
DuckDB table `books_wh_tbl`) and verification of its specification.

The analytical table is modelled as a list of `Book` rows.  SQL predicates of
the `WHERE` clauses are translated literally; numeric string literals such as
`price BETWEEN '{min}' AND '{max}'` are cast by DuckDB to the column's numeric
type, so they are modelled as numeric comparisons.  Prices and price bounds are
modelled as rationals.  Streamlit widget calls are modelled by their outcome
(the chosen value) and rendering side effects as explicit effect traces.
-/

namespace BooksApp

/-- A row of the `books_wh_tbl` analytical table:
`title` (text), `availability` (integer), `stars` (integer), `price` (decimal). -/
structure Book where
  title : String
  availability : Int
  stars : Int
  price : Rat
deriving DecidableEq, Repr

/-- The analytical table is a bag of rows. -/
abbrev Table := List Book

/-- The SQL predicate `availability = '{availability}' AND stars = '{stars}'`
shared by the count, price-range and single-result queries. -/
def matchesFilters (a s : Int) (b : Book) : Bool :=
  decide (b.availability = a) && decide (b.stars = s)

/-- The SQL predicate `price BETWEEN '{slider_price_min}' AND '{slider_price_max}'`
(BETWEEN is inclusive on both ends). -/
def inPriceRange (pmin pmax : Rat) (b : Book) : Bool :=
  decide (pmin ≤ b.price) && decide (b.price ≤ pmax)

/-- DuckDB `ROUND(x, 2)`: round to two decimal places, half away from zero. -/
def round2 (x : Rat) : Rat :=
  ((if 0 ≤ x then (x * 100 + 1/2).floor else -((-(x * 100)) + 1/2).floor : Int) : Rat) / 100

/-- Read-only queries `main` and the renderers issue against the store,
identified by which source query they embed. -/
inductive QueryKind
  | distinctAvailability
  | distinctStars
  | countMatched
  | priceRange
  | matchedRows
  | avgPrice
  | singleRowLookup
deriving DecidableEq, Repr

/-- Result of executing one query against the store. -/
inductive QueryResult
  | count (n : Nat)
  | bounds (lo hi : Option Rat)
  | rows (rs : List Book)
  | scalar (v : Option Rat)
deriving DecidableEq, Repr

/-- Execution of one read-only SQL query of the app against the store.  The
store state is threaded explicitly: the pair returned is the table after the
query together with the query's result.  Every query of `books_app.py` is a
`SELECT`, which reads the table and writes nothing. -/
def execQuery (db : Table) : QueryKind × Int × Int × Rat × Rat → Table × QueryResult
  | (.distinctAvailability, _, _, _, _) =>
      (db, .rows db)
  | (.distinctStars, _, _, _, _) =>
      (db, .rows db)
  | (.countMatched, a, s, _, _) =>
      (db, .count ((db.filter (matchesFilters a s)).length))
  | (.priceRange, a, s, _, _) =>
      (db, .bounds ((db.filter (matchesFilters a s)).map Book.price).min?
                   ((db.filter (matchesFilters a s)).map Book.price).max?)
  | (.matchedRows, a, s, pmin, pmax) =>
      (db, .rows (db.filter (fun b => matchesFilters a s b && inPriceRange pmin pmax b)))
  | (.avgPrice, a, s, pmin, pmax) =>
      let rs := db.filter (fun b => matchesFilters a s b && inPriceRange pmin pmax b)
      (db, .scalar (if rs.isEmpty then none
                    else some (round2 ((rs.map Book.price).sum / (rs.length : Rat)))))
  | (.singleRowLookup, a, s, _, _) =>
      (db, .rows (db.filter (matchesFilters a s)))

/-- Embeds `get_number_of_matched_books`:
`SELECT COUNT(*) FROM books_wh_tbl WHERE availability = '{a}' AND stars = '{s}'`. -/
def get_number_of_matched_books (db : Table) (a s : Int) : Nat :=
  (db.filter (matchesFilters a s)).length

/-- Embeds `determine_price_range`:
`SELECT min(price), max(price) FROM books_wh_tbl WHERE availability = '{a}' AND stars = '{s}'`.
With no matching row, SQL `min`/`max` return NULL, modelled as `none`. -/
def determine_price_range (db : Table) (a s : Int) : Option Rat × Option Rat :=
  (((db.filter (matchesFilters a s)).map Book.price).min?,
   ((db.filter (matchesFilters a s)).map Book.price).max?)

/-- A Python exception escaping a modelled function. -/
inductive PyError
  | unboundLocalError (name : String)
deriving DecidableEq, Repr

/-- Side effects of `select_price_range_slider`: whether `logging.error` ran and
whether the `st.error` banner was shown. -/
structure SliderEffects where
  logged_error : Bool
  error_banner : Bool
deriving DecidableEq, Repr

/-- Embeds `select_price_range_slider`.  The `st.slider` widget call is modelled
by its outcome, passed in as `sliderOutcome`: `Except.ok` with the chosen pair,
or `Except.error` with the exception message when the widget raises on a
degenerate range.  On the exception path the source runs `logging.error` and
`st.error`, but the `return slider_price_min, slider_price_max` statement that
follows the try/except block reads locals that were never assigned (the tuple
assignment failed before binding them), so the function raises
`UnboundLocalError` instead of returning. -/
def select_price_range_slider (sliderOutcome : Except String (Rat × Rat)) :
    SliderEffects × Except PyError (Rat × Rat) :=
  match sliderOutcome with
  | .ok p => (⟨false, false⟩, .ok p)
  | .error _ => (⟨true, true⟩, .error (.unboundLocalError "slider_price_min"))

/-- Embeds `matched_results_dataframe`: the three-predicate query
`SELECT * FROM books_wh_tbl WHERE availability = ... AND stars = ... AND price BETWEEN ...`,
returning the dict with keys `results` and `results_count`. -/
def matched_results_dataframe (db : Table) (a s : Int) (pmin pmax : Rat) :
    List Book × Nat :=
  let matched_results := db.filter (fun b => matchesFilters a s b && inPriceRange pmin pmax b)
  (matched_results, matched_results.length)

/-- Embeds `avg_price_from_db`:
`SELECT ROUND(AVG(price),2) ... WHERE` the same three predicates.  SQL `AVG`
over an empty set is NULL, modelled as `none`. -/
def avg_price_from_db (db : Table) (a s : Int) (pmin pmax : Rat) : Option Rat :=
  let rs := db.filter (fun b => matchesFilters a s b && inPriceRange pmin pmax b)
  if rs.isEmpty then none
  else some (round2 ((rs.map Book.price).sum / (rs.length : Rat)))

/-- Pandas reindexing `df.index = range(1, len(df) + 1)`: rows paired with
1-based indices. -/
def oneIndexed (rows : List Book) : List (Nat × Book) :=
  rows.enum.map (fun p => (p.1 + 1, p.2))

/-- Embeds `render_single_result`: re-query with
`WHERE availability = '{a}' AND stars = '{s}'` only (no price predicate) and
display the result reindexed from 1. -/
def render_single_result (db : Table) (a s : Int) : List (Nat × Book) :=
  oneIndexed (db.filter (matchesFilters a s))

/-- What the `render_results_gte_2` path displays: the count banner, the
displayed slice of rows, the average-price metric and the histogram input. -/
structure ManyRender where
  banner_count : Nat
  displayed_rows : List (Nat × Book)
  avg_metric : Option Rat
  histogram_prices : List Rat
  histogram_bins : Nat
deriving DecidableEq, Repr

/-- Embeds the data displayed by `render_results_gte_2` once the slider pair
`(pmin, pmax)` is fixed and the user picked a display `quantity` from the radio
options.  The banner is `matched_results_count`, the table shows
`matched_results.head(quantity)` after reindexing from 1, the metric is
`avg_price_from_db`, and `plot_results` histograms the matched prices with
10 bins. -/
def render_results_gte_2 (db : Table) (a s : Int) (pmin pmax : Rat) (quantity : Nat) :
    ManyRender :=
  let res := matched_results_dataframe db a s pmin pmax
  { banner_count := res.2
    displayed_rows := (oneIndexed res.1).take quantity
    avg_metric := avg_price_from_db db a s pmin pmax
    histogram_prices := res.1.map Book.price
    histogram_bins := 10 }

/-- Rendering buckets of the spec glossary. -/
inductive Bucket
  | EMPTY
  | SINGLE
  | MANY
deriving DecidableEq, Repr

/-- The `function_lookup` dict of `main`, keyed by `min(2, count)`:
`0 → render_null_result`, `1 → render_single_result`, `2 → render_results_gte_2`,
read as the bucket each key renders. -/
def function_lookup_bucket : Nat → Bucket
  | 0 => .EMPTY
  | 1 => .SINGLE
  | _ => .MANY

/-- The dispatch `function_lookup[min(2, number_of_found_results)]` of `main`,
mapped to the bucket it selects. -/
def classify_count (n : Nat) : Bucket :=
  function_lookup_bucket (min 2 n)

/-- Observable side effects of one interaction: store queries, user-facing
notices (markdown/subheader), the displayed table, the metric, the histogram. -/
inductive Effect
  | storeQuery (k : QueryKind)
  | notice (msg : String)
  | showTable (rows : List (Nat × Book))
  | metric (v : Option Rat)
  | histogram (prices : List Rat) (bins : Nat)
deriving DecidableEq, Repr

/-- True on store-query effects. -/
def isStoreQuery : Effect → Bool
  | .storeQuery _ => true
  | _ => false

/-- True on user-facing notice effects. -/
def isNotice : Effect → Bool
  | .notice _ => true
  | _ => false

/-- Effect trace of `render_null_result`: a single markdown notice, no query. -/
def render_null_result_effects : List Effect :=
  [.notice "No Matching Results."]

/-- Effect trace of `render_single_result`: a notice, the availability+stars
re-query, and the reindexed table display. -/
def render_single_result_effects (db : Table) (a s : Int) : List Effect :=
  [.notice "Single book found:",
   .storeQuery .singleRowLookup,
   .showTable (render_single_result db a s)]

/-- Effect trace of `render_results_gte_2` with the slider outcome `(pmin, pmax)`
and chosen display `quantity`: the min/max price-range query, the matched-rows
query, the count banner, the displayed slice, the AVG query with its metric,
and the 10-bin histogram. -/
def render_results_gte_2_effects (db : Table) (a s : Int) (pmin pmax : Rat)
    (quantity : Nat) : List Effect :=
  let mr := render_results_gte_2 db a s pmin pmax quantity
  [.storeQuery .priceRange,
   .storeQuery .matchedRows,
   .notice (toString mr.banner_count ++ " Book(s) Found"),
   .showTable mr.displayed_rows,
   .storeQuery .avgPrice,
   .metric mr.avg_metric,
   .histogram mr.histogram_prices mr.histogram_bins]

/-- Effect trace of `main` after the count succeeded: the dispatch
`function_lookup[min(2, number_of_found_results)]()` selects one renderer's
trace. -/
def main_render_effects (db : Table) (a s : Int) (pmin pmax : Rat)
    (quantity : Nat) : List Effect :=
  match min 2 (get_number_of_matched_books db a s) with
  | 0 => render_null_result_effects
  | 1 => render_single_result_effects db a s
  | _ => render_results_gte_2_effects db a s pmin pmax quantity

/-- Effect trace of one whole interaction of `main`: the two distinct-values
queries of `select_availability_and_stars_filters`, the count query of
`get_number_of_matched_books`, then the dispatched renderer's trace. -/
def main_effects (db : Table) (a s : Int) (pmin pmax : Rat)
    (quantity : Nat) : List Effect :=
  .storeQuery .distinctAvailability ::
  .storeQuery .distinctStars ::
  .storeQuery .countMatched ::
  main_render_effects db a s pmin pmax quantity

/-- The renderer trace belonging to each bucket of the spec. -/
def bucket_renderer (bk : Bucket) (db : Table) (a s : Int) (pmin pmax : Rat)
    (quantity : Nat) : List Effect :=
  match bk with
  | .EMPTY => render_null_result_effects
  | .SINGLE => render_single_result_effects db a s
  | .MANY => render_results_gte_2_effects db a s pmin pmax quantity

/-- The single-quote character of the SQL literals. -/
def sq : String := String.mk [Char.ofNat 39]

/-- The SQL text built by `get_number_of_matched_books`: an f-string that
interpolates the user-controlled `availability` and `stars` values directly
into the query text (whitespace normalised). -/
def get_number_of_matched_books_sql (availability stars : String) : String :=
  "SELECT COUNT(*) FROM books_wh_tbl WHERE availability = " ++ sq ++ availability ++ sq ++
    " AND stars = " ++ sq ++ stars ++ sq

/-- The SQL text built by `matched_results_dataframe`: an f-string that
interpolates all four user-controlled filter values directly into the query
text (whitespace normalised). -/
def matched_results_sql (availability stars pmin pmax : String) : String :=
  "SELECT * FROM books_wh_tbl WHERE availability = " ++ sq ++ availability ++ sq ++
    " AND stars = " ++ sq ++ stars ++ sq ++
    " AND price BETWEEN " ++ sq ++ pmin ++ sq ++ " AND " ++ sq ++ pmax ++ sq

/-- Modelled from the spec: the Result Classifier count of §4.3,
`|{rows : availability=a ∧ stars=s ∧ price_min ≤ price ≤ price_max}|`,
written from the spec's three-predicate set comprehension for comparison with
the source's dispatch count. -/
def specMatchedCount3 (db : Table) (a s : Int) (pmin pmax : Rat) : Nat :=
  db.countP (fun b => decide (b.availability = a ∧ b.stars = s ∧
    pmin ≤ b.price ∧ b.price ≤ pmax))

/-- The cardinality of `{rows : availability=a ∧ stars=s}`, the two-predicate
set actually counted by the dispatch query, written as a set-comprehension
count for comparison with the source definition. -/
def specMatchedCount2 (db : Table) (a s : Int) : Nat :=
  db.countP (fun b => decide (b.availability = a ∧ b.stars = s))

/-- The three-predicate matched rows written from the spec's set comprehension. -/
def specMatchedRows (db : Table) (a s : Int) (pmin pmax : Rat) : List Book :=
  db.filter (fun b => decide (b.availability = a ∧ b.stars = s ∧
    pmin ≤ b.price ∧ b.price ≤ pmax))

/-- Arithmetic mean of a list of rationals. -/
def specMean (xs : List Rat) : Rat :=
  xs.sum / (xs.length : Rat)

/-- Fixture table: two books share `(availability, stars) = (1, 1)` with prices
10 and 20, so the sub-range `[15, 16]` of the resolved range `[10, 20]`
excludes both. -/
def fixtureTwoBooks : Table :=
  [⟨"Book A", 1, 1, 10⟩, ⟨"Book B", 1, 1, 20⟩]

/-- Fixture table: a single book with `(availability, stars) = (3, 5)` and
price 50. -/
def fixtureOneBook : Table :=
  [⟨"Only Book", 3, 5, 50⟩, ⟨"Other Book", 2, 1, 7⟩]

/-- The Boolean two-predicate filter of the source agrees pointwise with the
propositional two-predicate set membership of the spec. -/
theorem matchesFilters_eq_decide (a s : Int) (b : Book) :
    matchesFilters a s b = decide (b.availability = a ∧ b.stars = s) := by
  simp [matchesFilters]

/-- The Boolean three-predicate filter of the source agrees pointwise with the
propositional three-predicate set membership of the spec. -/
theorem matched_pred_eq_decide (a s : Int) (pmin pmax : Rat) (b : Book) :
    (matchesFilters a s b && inPriceRange pmin pmax b)
      = decide (b.availability = a ∧ b.stars = s ∧ pmin ≤ b.price ∧ b.price ≤ pmax) := by
  simp [matchesFilters, inPriceRange, Bool.and_assoc]

/-- The rows selected by the three-predicate source query are exactly the
three-predicate matched set of the spec. -/
theorem filter3_eq_specMatchedRows (db : Table) (a s : Int) (pmin pmax : Rat) :
    db.filter (fun b => matchesFilters a s b && inPriceRange pmin pmax b)
      = specMatchedRows db a s pmin pmax := by
  unfold specMatchedRows
  exact List.filter_congr (fun b _ => matched_pred_eq_decide a s pmin pmax b)

/-- C1 counterexample: on a table with two books of `(availability, stars) = (1, 1)`
and prices 10 and 20, with the slider sub-range `[15, 16]`, the count used for
bucket dispatch is 2 but the three-predicate cardinality
`|{rows : availability=a ∧ stars=s ∧ price_min ≤ price ≤ price_max}|` is 0, so
the dispatch count is not the three-predicate count. -/
theorem c1_dispatch_count_not_three_predicate :
    get_number_of_matched_books fixtureTwoBooks 1 1 = 2 ∧
    specMatchedCount3 fixtureTwoBooks 1 1 15 16 = 0 ∧
    get_number_of_matched_books fixtureTwoBooks 1 1 ≠
      specMatchedCount3 fixtureTwoBooks 1 1 15 16 := by
  decide

/-- C1 (amended): for every table and every filter selection, the count used
for bucket dispatch equals `|{rows : availability=a ∧ stars=s}|` — the
two-predicate cardinality, ignoring the price bounds. -/
theorem c1_dispatch_count_is_two_predicate (db : Table) (a s : Int) :
    get_number_of_matched_books db a s = specMatchedCount2 db a s := by
  unfold get_number_of_matched_books specMatchedCount2
  rw [List.countP_eq_length_filter]
  exact congrArg List.length
    (List.filter_congr (fun b _ => matchesFilters_eq_decide a s b))

/-- C2: when the slider raises on a degenerate range, the source does log the
error and does show the user-facing banner, but the `return` statement that
follows reads the never-assigned locals, so `select_price_range_slider` raises
`UnboundLocalError` instead of returning — the exception does propagate and the
render aborts, contrary to the claim. -/
theorem c2_slider_error_still_propagates :
    (select_price_range_slider
        (Except.error "StreamlitAPIException: degenerate slider range")).1
      = ⟨true, true⟩ ∧
    (select_price_range_slider
        (Except.error "StreamlitAPIException: degenerate slider range")).2
      = Except.error (PyError.unboundLocalError "slider_price_min") :=
  ⟨rfl, rfl⟩

/-- C3: the bucket mapping is mutually exclusive and exhaustive over all
non-negative counts — `EMPTY` iff the count is 0, `SINGLE` iff it is 1, `MANY`
iff it is at least 2 — and the dispatch `function_lookup[min(2, count)]` of
`main` runs exactly the renderer of that bucket. -/
theorem c3_bucket_mapping_exclusive_exhaustive :
    (∀ n : Nat,
      (classify_count n = Bucket.EMPTY ↔ n = 0) ∧
      (classify_count n = Bucket.SINGLE ↔ n = 1) ∧
      (classify_count n = Bucket.MANY ↔ 2 ≤ n)) ∧
    (∀ (db : Table) (a s : Int) (pmin pmax : Rat) (q : Nat),
      main_render_effects db a s pmin pmax q =
        bucket_renderer (classify_count (get_number_of_matched_books db a s))
          db a s pmin pmax q) := by
  constructor
  · intro n
    match n with
    | 0 => simp [classify_count, function_lookup_bucket]
    | 1 => simp [classify_count, function_lookup_bucket]
    | n + 2 =>
      have hmin : min 2 (n + 2) = 2 := by omega
      simp [classify_count, function_lookup_bucket, hmin]
  · intro db a s pmin pmax q
    match h : get_number_of_matched_books db a s with
    | 0 => simp [main_render_effects, bucket_renderer, classify_count,
        function_lookup_bucket, h]
    | 1 => simp [main_render_effects, bucket_renderer, classify_count,
        function_lookup_bucket, h]
    | n + 2 =>
      have hmin : min 2 (n + 2) = 2 := by omega
      simp [main_render_effects, bucket_renderer, classify_count,
        function_lookup_bucket, h, hmin]

/-- C4: the average price the MANY renderer displays is the arithmetic mean of
`price` over exactly the rows satisfying all three predicates, rounded to two
decimal places, and it is the same for every display-quantity choice. -/
theorem c4_avg_price_over_full_matched_set (db : Table) (a s : Int)
    (pmin pmax : Rat) (q q' : Nat)
    (h : specMatchedRows db a s pmin pmax ≠ []) :
    (render_results_gte_2 db a s pmin pmax q).avg_metric =
      some (round2 (specMean ((specMatchedRows db a s pmin pmax).map Book.price))) ∧
    (render_results_gte_2 db a s pmin pmax q).avg_metric =
      (render_results_gte_2 db a s pmin pmax q').avg_metric := by
  have havg : avg_price_from_db db a s pmin pmax =
      some (round2 (specMean ((specMatchedRows db a s pmin pmax).map Book.price))) := by
    unfold avg_price_from_db
    rw [filter3_eq_specMatchedRows]
    rw [if_neg (by simpa using h)]
    unfold specMean
    rw [List.length_map]
  exact ⟨havg, rfl⟩

/-- C4 witness: on the two-book fixture with the full price range `[0, 100]`,
the matched set is nonempty and the displayed average equals the rounded mean
of the matched prices, for display quantities 5 and 2 alike. -/
theorem c4_witness :
    specMatchedRows fixtureTwoBooks 1 1 0 100 ≠ [] ∧
    ((render_results_gte_2 fixtureTwoBooks 1 1 0 100 5).avg_metric =
        some (round2 (specMean ((specMatchedRows fixtureTwoBooks 1 1 0 100).map Book.price))) ∧
      (render_results_gte_2 fixtureTwoBooks 1 1 0 100 5).avg_metric =
        (render_results_gte_2 fixtureTwoBooks 1 1 0 100 2).avg_metric) :=
  ⟨by decide, c4_avg_price_over_full_matched_set fixtureTwoBooks 1 1 0 100 5 2 (by decide)⟩

/-- C5: when the dispatch count is 1, `render_single_result` re-queries using
only the availability and stars predicates (its query has no price predicate)
and displays the unique matching row as a one-row table whose index starts
at 1. -/
theorem c5_single_renderer_one_row_indexed_from_1 (db : Table) (a s : Int)
    (h : get_number_of_matched_books db a s = 1) :
    ∃ b : Book, db.filter (matchesFilters a s) = [b] ∧
      matchesFilters a s b = true ∧
      render_single_result db a s = [(1, b)] := by
  have h' : (db.filter (matchesFilters a s)).length = 1 := h
  obtain ⟨b, hb⟩ := List.length_eq_one.mp h'
  refine ⟨b, hb, ?_, ?_⟩
  · have hmem : b ∈ db.filter (matchesFilters a s) := by
      rw [hb]; exact List.mem_singleton_self b
    exact (List.mem_filter.mp hmem).2
  · unfold render_single_result oneIndexed
    rw [hb]
    rfl

/-- C5 witness: on the one-book fixture, `(availability, stars) = (3, 5)`
matches exactly one row and the single renderer shows it as the one-row table
indexed from 1. -/
theorem c5_witness :
    get_number_of_matched_books fixtureOneBook 3 5 = 1 ∧
    ∃ b : Book, fixtureOneBook.filter (matchesFilters 3 5) = [b] ∧
      matchesFilters 3 5 b = true ∧
      render_single_result fixtureOneBook 3 5 = [(1, b)] :=
  ⟨by decide, c5_single_renderer_one_row_indexed_from_1 fixtureOneBook 3 5 (by decide)⟩

/-- C6: at a pair `(availability, stars) = (9, 9)` with no matching rows, the
source `determine_price_range` returns the silent NULL pair `(none, none)`
from `min(price)`/`max(price)` instead of signalling an explicit empty-range
condition — its return type carries no such signal. -/
theorem c6_empty_range_returns_silent_nulls :
    fixtureOneBook.filter (matchesFilters 9 9) = [] ∧
    determine_price_range fixtureOneBook 9 9 = (none, none) := by
  decide

/-- C7: the SQL texts the source builds are f-strings that interpolate the
user-controlled filter values directly, so two different user selections yield
different query texts — the query structure is not fixed with only bound
parameters differing. -/
theorem c7_sql_text_varies_with_user_input :
    get_number_of_matched_books_sql "1" "1" ≠ get_number_of_matched_books_sql "2" "1" ∧
    matched_results_sql "1" "1" "10" "20" ≠ matched_results_sql "1" "2" "10" "20" := by
  constructor <;> decide

/-- C8: when the dispatch count is 0, the interaction renders exactly the
single notice of `render_null_result`: the renderer trace is that one notice,
the whole interaction shows exactly one notice, the renderer issues no store
query at all, and in particular no price-range query occurs anywhere in the
interaction. -/
theorem c8_empty_bucket_renders_one_notice_no_queries (db : Table) (a s : Int)
    (pmin pmax : Rat) (q : Nat)
    (h : get_number_of_matched_books db a s = 0) :
    main_render_effects db a s pmin pmax q = [Effect.notice "No Matching Results."] ∧
    (main_effects db a s pmin pmax q).countP isNotice = 1 ∧
    (main_render_effects db a s pmin pmax q).countP isStoreQuery = 0 ∧
    Effect.storeQuery QueryKind.priceRange ∉ main_effects db a s pmin pmax q := by
  have htrace : main_render_effects db a s pmin pmax q =
      [Effect.notice "No Matching Results."] := by
    unfold main_render_effects
    rw [h]
    rfl
  refine ⟨htrace, ?_, ?_, ?_⟩
  · unfold main_effects
    rw [htrace]
    decide
  · rw [htrace]
    decide
  · unfold main_effects
    rw [htrace]
    decide

/-- C8 witness: on the one-book fixture, `(availability, stars) = (9, 9)`
matches zero rows, and the interaction trace is the three initial queries
followed by the single no-results notice, with no price-range query. -/
theorem c8_witness :
    get_number_of_matched_books fixtureOneBook 9 9 = 0 ∧
    (main_render_effects fixtureOneBook 9 9 0 0 3 = [Effect.notice "No Matching Results."] ∧
      Effect.storeQuery QueryKind.priceRange ∉ main_effects fixtureOneBook 9 9 0 0 3) :=
  ⟨by decide,
    (c8_empty_bucket_renders_one_notice_no_queries fixtureOneBook 9 9 0 0 3 (by decide)).1,
    (c8_empty_bucket_renders_one_notice_no_queries fixtureOneBook 9 9 0 0 3 (by decide)).2.2.2⟩

/-- C9: the Result Classifier count query is a total, deterministic,
side-effect-free read: executing it leaves the table unchanged, executing it
again on the resulting state returns the same answer, and the answer is the
two-predicate matched count. -/
theorem c9_classifier_total_deterministic_pure (db : Table) (a s : Int)
    (pmin pmax : Rat) :
    (execQuery db (QueryKind.countMatched, a, s, pmin, pmax)).1 = db ∧
    (execQuery (execQuery db (QueryKind.countMatched, a, s, pmin, pmax)).1
        (QueryKind.countMatched, a, s, pmin, pmax)).2 =
      (execQuery db (QueryKind.countMatched, a, s, pmin, pmax)).2 ∧
    (execQuery db (QueryKind.countMatched, a, s, pmin, pmax)).2 =
      QueryResult.count (get_number_of_matched_books db a s) := by
  refine ⟨rfl, rfl, rfl⟩

/-- C10: the count displayed by the MANY renderer banner is the number of rows
matching all three predicates including the slider price bounds; and since the
dispatch is decided only on availability and stars, there is a table and a
slider selection — the two-book fixture with sub-range `[15, 16]` — where the
MANY bucket is chosen yet the displayed count is 0. -/
theorem c10_many_banner_three_predicate_can_be_lt_2 :
    (∀ (db : Table) (a s : Int) (pmin pmax : Rat) (q : Nat),
      (render_results_gte_2 db a s pmin pmax q).banner_count =
        specMatchedCount3 db a s pmin pmax) ∧
    classify_count (get_number_of_matched_books fixtureTwoBooks 1 1) = Bucket.MANY ∧
    (render_results_gte_2 fixtureTwoBooks 1 1 15 16 5).banner_count = 0 := by
  refine ⟨?_, by decide, by decide⟩
  intro db a s pmin pmax q
  show (matched_results_dataframe db a s pmin pmax).2 = _
  unfold matched_results_dataframe specMatchedCount3
  rw [List.countP_eq_length_filter]
  exact congrArg List.length (filter3_eq_specMatchedRows db a s pmin pmax)

end BooksApp
